import Mathlib

/-!
Shallow embedding of the blog data-access layer (`src/lib/blog.ts`), the
shared types (`src/types/blog.ts`) and the REST route handlers
(`src/pages/api/blog/[slug].ts`, `src/pages/api/blog/tags/[tag].ts`) of the
faith-nte/faithnte repository, together with proofs of the specification
claims about them.

Conventions of the embedding:
* JavaScript strings become `String`, arrays become `List`, numbers used as
  integers become `Nat` or `Int`, `undefined`/`null`/optional values become
  `Option`.
* The `async` data-access functions perform exactly one effect each: a call
  to `fetch` (modelled by an environment `Nat → FetchOutcome` giving the
  outcome of each numbered attempt) or a read/write of the module-level
  cache variables (modelled by explicit `CacheState` passing).
* Functions that in TypeScript can only exit by returning (every `throw`
  inside `fetchWordPressPosts` is caught by its own retry loop) are total
  Lean functions.
-/

/-- The `BlogPost` interface of `src/types/blog.ts`. -/
structure BlogPost where
  id : String
  title : String
  slug : String
  excerpt : String
  content : String
  author : String
  publishedAt : String
  updatedAt : String
  tags : List String
  featured : Bool
  published : Bool
  coverImage : Option String
deriving DecidableEq, Repr

/-- The `BlogPostMeta` interface of `src/types/blog.ts`: the fields it
declares are `id`, `title`, `slug`, `excerpt`, `author`, `publishedAt`,
`tags`, `featured`, `coverImage`. -/
structure BlogPostMeta where
  id : String
  title : String
  slug : String
  excerpt : String
  author : String
  publishedAt : String
  tags : List String
  featured : Bool
  coverImage : Option String
deriving DecidableEq, Repr

/-- The `pagination` sub-object of `PaginatedBlogPosts` in
`src/types/blog.ts`. -/
structure Pagination where
  currentPage : Nat
  totalPages : Nat
  totalPosts : Nat
  hasNext : Bool
  hasPrev : Bool
deriving DecidableEq, Repr

/-- The `PaginatedBlogPosts` envelope of `src/types/blog.ts`. -/
structure PaginatedBlogPosts where
  posts : List BlogPostMeta
  pagination : Pagination
deriving DecidableEq, Repr

/-- The `APIResponse<T>` envelope of `src/types/blog.ts`; the optional
fields `data`, `error` and `message` are `Option`s. -/
structure APIResponse (α : Type) where
  success : Bool
  data : Option α
  error : Option String
  message : Option String
deriving DecidableEq, Repr
/-- The hard-coded fallback posts returned when the WordPress API is
unavailable (`getFallbackPosts` in `src/lib/blog.ts`). -/
def getFallbackPosts : List BlogPost := [
  ⟨
    "49",
    "How We Transformed NHS GP Website with WordPress & Nightingale Theme and How You Can Achieve the Same",
    "gp-website-with-wordpress-nightingale-theme",
    "In May 2023, NHSE released a GP website benchmarking and improvement tool. The tool has three focuses but the top two are: The top tasks that patients want to do on a GP website and The things that patients found most challenging on GP websites. At our PCN, we used this tool to benchmark our GP websites, improve them, and create an adjusted benchmarking framework that meets all NHS guidelines.",
    "<div id=\"ez-toc-container\" class=\"ez-toc-v2_0_75 counter-hierarchy ez-toc-counter ez-toc-grey ez-toc-container-direction\">\n<div class=\"ez-toc-title-container\">\n<p class=\"ez-toc-title\" style=\"cursor:inherit\">Table of Contents</p>\n</div>\n<nav><ul class=\x27ez-toc-list ez-toc-list-level-1 \x27>\n<li class=\x27ez-toc-page-1 ez-toc-heading-level-2\x27><a class=\"ez-toc-link ez-toc-heading-1\" href=\"#How_do_our_GP_websites_meet_the_top_tasks_that_patients_want_to_do_on_a_GP_website\">How do our GP websites meet the top tasks that patients want to do on a GP website?</a></li>\n<li class=\x27ez-toc-page-1 ez-toc-heading-level-2\x27><a class=\"ez-toc-link ez-toc-heading-2\" href=\"#We_use_a_homepage_pop-up_but_how_does_it_help_patients_use_the_website\">We use a homepage pop-up, but how does it help patients use the website?</a></li>\n<li class=\x27ez-toc-page-1 ez-toc-heading-level-2\x27><a class=\"ez-toc-link ez-toc-heading-4\" href=\"#Why_Did_We_Revamp_the_Website\">Why Did We Revamp the Website?</a></li>\n<li class=\x27ez-toc-page-1 ez-toc-heading-level-2\x27><a class=\"ez-toc-link ez-toc-heading-5\" href=\"#Why_Website_Suppliers_Alone_Are_Not_the_Answer_to_a_Compliant_GP_Surgery_Website\">Why Website Suppliers Alone Are Not the Answer to a Compliant GP Surgery Website</a></li>\n<li class=\x27ez-toc-page-1 ez-toc-heading-level-2\x27><a class=\"ez-toc-link ez-toc-heading-7\" href=\"#Why_WordPress_is_the_Most_Suited_for_GP_PCN_Websites\">Why WordPress is the Most Suited for GP & PCN Websites</a></li>\n</ul></nav>\n</div>\n\n<p>In May 2023, NHSE released a GP website benchmarking and improvement tool.</p>\n\n<p>The tool has three focuses but the top two are:</p>\n\n<ol class=\"wp-block-list\">\n<li>The top tasks that patients want to do on a GP website</li>\n<li>The things that patients found most challenging on GP websites</li>\n</ol>\n\n<p>At our PCN, we used this tool to benchmark our GP websites, improve them, and create an adjusted benchmarking framework that meets all NHS guidelines.</p>\n\n<h2 class=\"wp-block-heading\">How do our GP websites meet the top tasks that patients want to do on a GP website?</h2>\n\n<p>There are four key patient priorities when they visit a GP website:</p>\n\n<ul class=\"wp-block-list\">\n<li>Book appointments,</li>\n<li>Repeat prescription information,</li>\n<li>Get test results,</li>\n<li>Find opening hours and contact information</li>\n</ul>\n\n<p>Recent GP website design adopted square boxes for each item.</p>\n\n<p>We followed this best practice; the first two boxes are book appointments and repeat prescription information.</p>\n\n<p>Grouped the test results and repeat prescriptions under the NHS App box.</p>\n\n<p>As the NHS App has become a preferred way of managing test result requests</p>\n\n<p>Information on opening hours and contact-us were grouped as top items on the website menu.</p>\n\n<h2 class=\"wp-block-heading\">Why WordPress is the Most Suited for GP & PCN Websites</h2>\n\n<p>When it comes to IT solutions, numbers matter.</p>\n\n<p>WordPress powers 43% of all websites globally with a large amount of developers contributing to the platform.</p>\n\n<p>This means you can easily find WordPress talent than you would ASP.net</p>\n\n<p>Some suppliers use the Nightingale theme build by NHS Leadership Academy Digital Team</p>\n\n<p>you can use the same.</p>\n\n<p>It makes it easier to deploy an NHS compliant website in minutes</p>",
    "Faith Nte",
    "2025-01-12T22:06:33",
    "2025-02-03T20:04:28",
    ["nhs", "wordpress", "website"],
    true,
    true,
    (some "https://blog.faithnte.com/wp-content/uploads/2025/01/transformed-gp-website-with-wordpress-cms-and-nightingale-theme.png")
  ⟩,
  ⟨
    "22",
    "Achieved 9% Growth in NHS App Uptake in 8 Months",
    "9-nhs-app-uptake-in-8-months",
    "Our PCN got into 2024 at 55% NHS App uptake. A fairly good amount, but our ICB wanted 70% by December 2024. If we increased monthly registration from 140 to 220, we could only reach 70% by December 2025 (one year later).",
    "<p>Our PCN got into 2024 at 55% NHS App uptake.</p>\n\n<p>A fairly good amount, but our ICB wanted 70% by December 2024.</p>\n\n<p>If we increased monthly registration from 140 to 220, we could only reach 70% by December 2025 (one year later).</p>\n\n<h2 class=\"wp-block-heading\"><strong>The Challenge</strong>:</h2>\n\n<p>Covid-19 was the primary reason many people downloaded the NHS App.</p>\n\n<p>I was told, \"We do not tell people which app to use; they just figure it out.\"</p>\n\n<p>GPs were only responsible for issuing online access. This means giving people access to their medical records.</p>\n\n<p>But not how they access this record.</p>\n\n<p>The GP staff issues a linkage key, and the patient decides whether to use it on Evergreenlive, Patient Access, or tens of other patient-facing service providers</p>\n\n<p>However, the risk I found with this is when you see the GP Patient Survey, only the NHS App and GP website access option were taken into account</p>\n\n<p>They are one of the two areas in which patients of GP surgeries have expressed dissatisfaction the most.</p>\n\n<h2 class=\"wp-block-heading\">What we did to increase the NHS App Uptake</h2>\n\n<ol class=\"wp-block-list\">\n<li>I worked with Marta Fischer, the ICB Digital Access Lead, to train our GP admin staff on how to support patients getting on the NHS App</li>\n<li>Organised a drop-in session supported by our GP practice managers and colleagues</li>\n<li>Established a monthly Digital Café, now Digital Clinic at both practices to support people to download and use the NHS App</li>\n</ol>\n\n<h3 class=\"wp-block-heading\">We have now increased our NHS App uptake to a pre-covid record high of 400 monthly registrations</h3>\n\n<ul class=\"wp-block-list\">\n<li>Expected to reach 70% 6 months earlier than projected</li>\n<li>64% uptake in December 2024</li>\n<li>Have knowledgeable GP staff supporting and triaging patients with NHS App issues</li>\n<li>Issued proxy access to 5 of 6 eligible care homes in Wantage</li>\n</ul>\n\n<h2 class=\"wp-block-heading\">What value does the NHS app present to GP surgeries?</h2>\n\n<p>With most GPs moving from traditional appointments to a triage system,</p>\n\n<p>the cost of messaging patients has increased</p>\n\n<p>With some of our practices, using around 30,000 fragments (1 fragment is 160 characters or like 1 SMS page) messages per month</p>\n\n<p>BOB ICB withdrew SMS funding for self-booking messages.</p>\n\n<p>With the NHS App being a free service, GPs can save the cost of 2.25p per sms sent</p>\n\n<p>and include all required consultation information without feeling they are using too many fragments.</p>",
    "Faith Nte",
    "2025-01-01T21:49:13",
    "2025-02-03T20:04:51",
    ["nhs", "digital-transformation"],
    true,
    true,
    (some "https://blog.faithnte.com/wp-content/uploads/2025/01/nhs-app-uptake-growth.png")
  ⟩,
  ⟨
    "7",
    "Care Home Proxy Access: How We Did It – 4 Steps to Achieve the Same with This NHS Template",
    "care-home-proxy-access",
    "Care home proxy access enables care home staff to access residents\x27 GP services on time. Every week, a GP from the surgery gets an appointment to visit a resident of a care home who has a medical problem. Any observation from such a visit is recorded in the resident\x27s patient profile in the GP system.",
    "<p class=\"has-text-align-center\"><em>Care home proxy access enables care home staff to access residents\x27 GP services on time</em></p>\n\n<p>Every week, a GP from the surgery gets an appointment to visit a resident of a care home who has a medical problem.</p>\n\n<p>Any observation from such a visit is recorded in the resident\x27s patient profile in the GP system.</p>\n\n<p>The Enhanced Health in Care Home (EHCH) framework expects healthcare providers and Care Home staff to communicate better to improve resident care.</p>\n\n<p>To support better communication, some GP surgeries have an assigned admin staff member who enters each patient note and emails each consultation to the Care Homes.</p>\n\n<p>If the GP saw seven patients, an admin staff would email these seven consultations to the care homes.</p>\n\n<p>The problem with this method is that:</p>\n\n<p>This model can quickly increase admin staff\x27s workload and become a barrier for many GPs to meet the EHCH expectation.</p>\n\n<p>It is also a duplicated effort!</p>\n\n<p>Couple with the risk of missing out on some consultations due to manual human error.</p>\n\n<h2 class=\"wp-block-heading\">With proxy access</h2>\n\n<p>The care home staff sees the consultation in the resident\x27s medical note when the GP enters it.</p>\n\n<img src=\"https://lh7-rt.googleusercontent.com/docsz/AD_4nXduAYn2jZcpcpJKW5_xdnH40E4gCdDGZ1FMlGKWRPzfdvtcvijPXWJ0lNprYi-M1tFIemTo5VqarKUEZFoj_9N-vPwIZ2DBbXiJ3D_3Qx8_uZf3qHx1exJn_92nF59hQqh8KXF1-w?key=mFQUtj2QysCwYptqbGYTSFVO\" alt=\"what is proxy access?\" style=\"max-width: 100%; height: auto;\" />\n\n<p>Anyone responsible for their care, like Care Home staff who needs to order cream for a resident,</p>\n\n<p>can see what cream they are on and quickly make such a request without phoning the GP.</p>\n\n<p>Resulting in time-saving for the carer and improved care for the resident without adding workload for the GP.</p>\n\n<h2 class=\"wp-block-heading\">Benefits of proxy access</h2>\n\n<p>This Firmley ICB document summarises the benefits of proxy access for repeat prescriptions well.</p>\n\n<img src=\"https://lh7-rt.googleusercontent.com/docsz/AD_4nXf-MzoRDZhVhzDOsMOJNvAwc7G9GUYPtjN9NJzWbi0JHkvgUbJAcI3dd-amKYcI3dKwHYe6vICrZSBnzIcBmA9kI9P3bDApvi8oCRUhiyKwsBd8yHAD5_5DP0ms3Bf7ZCSh28Cv?key=mFQUtj2QysCwYptqbGYTSFVO\" alt=\"firmley icb description of the benefit of proxy access\" style=\"max-width: 100%; height: auto;\" />\n\n<p>But you can do more with proxy access</p>\n\n<h3 class=\"wp-block-heading\">View consultations:</h3>\n\n<p>Fulfilling the EHCH is easier if GP practices give care homes access to view consultations.</p>\n\n<p>This also gives them access to view allergies and medication, which can be limited to your desired period.</p>\n\n<p>With this access, Care Home staff can view PRNs (medications that are used as needed, like the cream example used earlier)</p>\n\n<h2 class=\"wp-block-heading\"><strong>Save one working day with this proxy access hack</strong></h2>\n\n<p>3 in 10 care home staff switch jobs every year</p>\n\n<p>That means GP staff will dedicate one working day in a year to issue proxy access to an average size care home</p>\n\n<p>But you should only spend such time when setting it up the first time.</p>\n\n<p>To save this time, you should limit the number of care home staff who can use proxy access.</p>\n\n<p>The max we have done so far is six staff per care home.</p>\n\n<p>Once you have established this, you only need to replace any leaver with the new staff</p>\n\n<h2 class=\"wp-block-heading\">Deliver care home proxy access in your PCN with this template</h2>\n\n<p>Whether you are a DTL or Practice Manager, this NHS template is all you need</p>\n\n<p>Download the NHS care home proxy access template</p>",
    "Faith Nte",
    "2024-12-21T12:11:50",
    "2025-02-03T20:05:15",
    ["nhs", "care-homes"],
    true,
    true,
    (some "https://blog.faithnte.com/wp-content/uploads/2024/12/care-home-proxy-access.png")
  ⟩]

/-- Entry of `_embedded.author` in the `WordPressPost` interface of
`src/lib/blog.ts`. -/
structure WPAuthor where
  id : Nat
  name : String
  slug : String
deriving DecidableEq, Repr

/-- Entry of `_embedded["wp:featuredmedia"]` in the `WordPressPost`
interface of `src/lib/blog.ts`. -/
structure WPMedia where
  id : Nat
  source_url : String
  alt_text : String
deriving DecidableEq, Repr

/-- Entry of the inner arrays of `_embedded["wp:term"]` in the
`WordPressPost` interface of `src/lib/blog.ts`. -/
structure WPTerm where
  id : Nat
  name : String
  slug : String
  taxonomy : String
deriving DecidableEq, Repr

/-- The optional `_embedded` object of a `WordPressPost`; each of its three
properties is itself optional. `wpTerm` stands for the `"wp:term"` key and
`wpFeaturedmedia` for the `"wp:featuredmedia"` key. -/
structure WPEmbedded where
  author : Option (List WPAuthor)
  wpFeaturedmedia : Option (List WPMedia)
  wpTerm : Option (List (List WPTerm))
deriving DecidableEq, Repr

/-- The `WordPressPost` interface of `src/lib/blog.ts` (the upstream API
record shape). The `meta : any` field carries no information used anywhere
and is embedded as `Unit`; `type` is a Lean keyword and is embedded as
`postType`. -/
structure WordPressPost where
  id : Nat
  date : String
  date_gmt : String
  modified : String
  modified_gmt : String
  slug : String
  status : String
  postType : String
  title : String
  content : String
  excerpt : String
  author : Nat
  featured_media : Nat
  tags : List Nat
  categories : List Nat
  meta : Unit
  embedded : Option WPEmbedded
deriving DecidableEq, Repr

/-- One step of `String.replace(/<[^>]*>/g, "")`: given the characters
after a `<`, drop everything up to and including the first `>`; `none`
when no `>` follows (the regex then has no match starting at that `<`). -/
def dropThroughGt : List Char → Option (List Char)
  | [] => none
  | c :: rest => if c = '>' then some rest else dropThroughGt rest

/-- `dropThroughGt` only ever drops characters. -/
theorem dropThroughGt_length {l l2 : List Char} (h : dropThroughGt l = some l2) :
    l2.length ≤ l.length := by
  induction l with
  | nil => simp [dropThroughGt] at h
  | cons c rest ih =>
    by_cases hc : c = '>'
    · simp [dropThroughGt, hc] at h
      simp [← h]
    · simp [dropThroughGt, hc] at h
      have := ih h
      simp
      omega

/-- `s.replace(/<[^>]*>/g, "")` on a character list: the regex matches a
`<`, then any run of non-`>` characters, then `>`; the global replace
removes every non-overlapping match, scanning left to right. -/
def stripHtmlAux : List Char → List Char
  | [] => []
  | c :: rest =>
    if c = '<' then
      match h : dropThroughGt rest with
      | some rest2 => stripHtmlAux rest2
      | none => c :: stripHtmlAux rest
    else
      c :: stripHtmlAux rest
termination_by l => l.length
decreasing_by
  · have := dropThroughGt_length h
    simp
    omega
  · simp
  · simp

/-- `wpPost.excerpt.rendered.replace(/<[^>]*>/g, "").trim()`. -/
def stripHtml (s : String) : String :=
  (String.mk (stripHtmlAux s.data)).trim

/-- `transformWordPressPost` of `src/lib/blog.ts`. JavaScript points kept
faithfully: `||` falls back not only on a missing value but also on an
empty string (`authorName`); the `|| []` on the tag chain fires only when
the optional chain itself is `undefined`, since an array is never falsy;
`coverImage` has no fallback and stays optional. -/
def transformWordPressPost (wpPost : WordPressPost) : BlogPost :=
  let chainedAuthor :=
    (((wpPost.embedded.bind (fun e => e.author)).bind List.head?).map
      (fun a => a.name))
  let authorName :=
    match chainedAuthor with
    | some n => if n = "" then "Faith Nte" else n
    | none => "Faith Nte"
  let coverImage :=
    (((wpPost.embedded.bind (fun e => e.wpFeaturedmedia)).bind List.head?).map
      (fun m => m.source_url))
  let tags :=
    match (wpPost.embedded.bind (fun e => e.wpTerm)).bind List.head? with
    | some terms =>
        (terms.filter (fun term => term.taxonomy = "post_tag")).map
          (fun tag => tag.slug)
    | none => []
  let cleanExcerpt := stripHtml wpPost.excerpt
  ⟨toString wpPost.id, wpPost.title, wpPost.slug, cleanExcerpt,
    wpPost.content, authorName, wpPost.date, wpPost.modified, tags,
    false, wpPost.status = "publish", coverImage⟩

/-- Outcome of one `fetch` of the WordPress endpoint, as observed by one
iteration of the retry loop in `fetchWordPressPosts`: the request can fail
outright (network error, abort by the 20 s timeout — anything that makes
`fetch` or `response.json()` throw), return a non-ok HTTP status, or
deliver a JSON array of posts. -/
inductive FetchOutcome where
  | netError
  | httpError (status : Nat)
  | ok (wpPosts : List WordPressPost)
deriving DecidableEq, Repr

/-- What one iteration of the retry loop's `try` block produces: `none`
when the iteration throws (network error, `!response.ok`, or an empty
`wpPosts` array, which the code turns into `throw new Error("No posts
returned from API")`), and `some` of the transformed posts on success. -/
def attemptResult (o : FetchOutcome) : Option (List BlogPost) :=
  match o with
  | FetchOutcome.netError => none
  | FetchOutcome.httpError _ => none
  | FetchOutcome.ok wpPosts =>
      if wpPosts.length = 0 then none
      else some (wpPosts.map transformWordPressPost)

/-- `const maxRetries = 3` in `fetchWordPressPosts`. -/
def maxRetries : Nat := 3

/-- Observable result of a run of `fetchWordPressPosts`: the returned
posts, how many `fetch` attempts were made, the list of sleeps (`setTimeout`
delays in milliseconds) inserted between attempts, in order, and whether
the hard-coded fallback was returned. The function always returns — every
`throw` inside the loop body is caught by its own `catch`, and after the
loop the function returns `getFallbackPosts()` instead of rethrowing
`lastError` — so no error channel appears in the type. -/
structure FetchResult where
  posts : List BlogPost
  attemptsMade : Nat
  delays : List Nat
  usedFallback : Bool
deriving DecidableEq, Repr

/-- The retry loop of `fetchWordPressPosts`, at loop counter `attempt`
with `fuel` iterations of `attempt <= maxRetries` left to run
(`fuel = maxRetries - attempt + 1`). `env n` is the outcome of the
`fetch` performed by attempt number `n`. On a failed attempt with
`attempt < maxRetries` the loop sleeps `attempt * 2000` ms before the next
iteration; after the loop exhausts its attempts the function returns
`getFallbackPosts()`. -/
def fetchLoop (env : Nat → FetchOutcome) : Nat → Nat → FetchResult
  | attempt, 0 => ⟨getFallbackPosts, attempt - 1, [], true⟩
  | attempt, fuel + 1 =>
    match attemptResult (env attempt) with
    | some posts => ⟨posts, attempt, [], false⟩
    | none =>
      let rest := fetchLoop env (attempt + 1) fuel
      ⟨rest.posts, rest.attemptsMade,
        (if attempt < maxRetries then [attempt * 2000] else []) ++ rest.delays,
        rest.usedFallback⟩

/-- `fetchWordPressPosts` of `src/lib/blog.ts`: the `for (let attempt = 1;
attempt <= maxRetries; attempt++)` loop started at attempt 1. -/
def fetchWordPressPosts (env : Nat → FetchOutcome) : FetchResult :=
  fetchLoop env 1 maxRetries

/-- The module-level mutable cache of `src/lib/blog.ts`:
`let postsCache: BlogPost[] | null = null` and `let cacheTimestamp = 0`.
Timestamps are `Int` because JavaScript computes `now - cacheTimestamp`
over signed numbers. -/
structure CacheState where
  postsCache : Option (List BlogPost)
  cacheTimestamp : Int
deriving DecidableEq, Repr

/-- The initial module state: `postsCache = null`, `cacheTimestamp = 0`. -/
def initialCacheState : CacheState := ⟨none, 0⟩

/-- `const CACHE_DURATION = 5 * 60 * 1000`. -/
def CACHE_DURATION : Int := 5 * 60 * 1000

/-- What a call to `getAllPosts` yields: the returned posts, the module
state after the call, and whether the call invoked `fetchWordPressPosts`
(`fetched = false` exactly when the cached array was returned as is). -/
structure GetAllResult where
  posts : List BlogPost
  state : CacheState
  fetched : Bool
deriving DecidableEq, Repr

/-- `getAllPosts` of `src/lib/blog.ts`, with the module cache passed as
explicit state, `now` the value of `Date.now()` at the call, and `env`
the fetch environment consumed by `fetchWordPressPosts` if it runs:
return the cache when it is non-null and `now - cacheTimestamp <
CACHE_DURATION`, otherwise overwrite both cache variables with the fresh
result and return it. -/
def getAllPosts (st : CacheState) (now : Int) (env : Nat → FetchOutcome) :
    GetAllResult :=
  match st.postsCache with
  | some cache =>
    if now - st.cacheTimestamp < CACHE_DURATION then
      ⟨cache, st, false⟩
    else
      let fresh := (fetchWordPressPosts env).posts
      ⟨fresh, ⟨some fresh, now⟩, true⟩
  | none =>
    let fresh := (fetchWordPressPosts env).posts
    ⟨fresh, ⟨some fresh, now⟩, true⟩

/-- The metadata object literal built from a post in `getPaginatedPosts`
(and again, identically, in the tag route handler): every field of the
`BlogPostMeta` shape copied from the post. -/
def toMeta (post : BlogPost) : BlogPostMeta :=
  ⟨post.id, post.title, post.slug, post.excerpt, post.author,
    post.publishedAt, post.tags, post.featured, post.coverImage⟩

/-- `Array.prototype.slice(start, end)` for non-negative in-range-clamped
indices, as used in `getPaginatedPosts` where both indices are products of
positive page numbers and limits. -/
def jsSlice (l : List BlogPost) (start endIdx : Nat) : List BlogPost :=
  (l.take endIdx).drop start

/-- `getPaginatedPosts(page, limit)` of `src/lib/blog.ts`, with the posts
returned by its `await getAllPosts()` call passed in as `allPosts` (the
source defaults, `page = 1` and `limit = 10`, are supplied by its
callers). `Math.ceil(totalPosts / limit)` is embedded as the ceiling of
the exact rational quotient, which for the in-scope arguments is the value
the JavaScript float computation produces. -/
def getPaginatedPosts (allPosts : List BlogPost) (page : Nat)
    (limit : Nat) : PaginatedBlogPosts :=
  let startIndex := (page - 1) * limit
  let endIndex := startIndex + limit
  let posts := jsSlice allPosts startIndex endIndex
  let totalPosts := allPosts.length
  let totalPages := ⌈(totalPosts : ℚ) / (limit : ℚ)⌉₊
  let postMetas := posts.map toMeta
  ⟨postMetas,
    ⟨page, totalPages, totalPosts,
      decide (page < totalPages), decide (page > 1)⟩⟩

/-- `getPostBySlug` of `src/lib/blog.ts`: `allPosts.find(post =>
post.slug === slug) || null`, with the posts of `await getAllPosts()`
passed in; `undefined` and `null` both embed to `none`. -/
def getPostBySlug (slug : String) (allPosts : List BlogPost) :
    Option BlogPost :=
  allPosts.find? (fun post => post.slug = slug)

/-- The arrow body `post => ({ ...post, featured: true })` in
`getFeaturedPosts`: the spread copies every field and then `featured` is
overwritten with `true`. -/
def markFeatured (post : BlogPost) : BlogPost :=
  ⟨post.id, post.title, post.slug, post.excerpt, post.content, post.author,
    post.publishedAt, post.updatedAt, post.tags, true, post.published,
    post.coverImage⟩

/-- `getFeaturedPosts` of `src/lib/blog.ts`: `allPosts.slice(0, 3).map(post
=> ({ ...post, featured: true }))`. -/
def getFeaturedPosts (allPosts : List BlogPost) : List BlogPost :=
  (allPosts.take 3).map markFeatured

/-- `getPostsByTag` of `src/lib/blog.ts`: `allPosts.filter(post =>
post.tags.includes(tag))`. -/
def getPostsByTag (tag : String) (allPosts : List BlogPost) :
    List BlogPost :=
  allPosts.filter (fun post => post.tags.contains tag)

/-- The `Set` accumulation of `getAllTags`: a JavaScript `Set` keeps
insertion order and ignores re-insertions, so `Array.from(tags)` is the
first-occurrence deduplication of all tags in post order. -/
def collectTags (allPosts : List BlogPost) : List String :=
  allPosts.foldl
    (fun acc post =>
      post.tags.foldl (fun acc2 tag => if tag ∈ acc2 then acc2 else acc2 ++ [tag]) acc)
    []

/-- `getAllTags` of `src/lib/blog.ts`: insert every tag of every post into
a `Set`, then `Array.from(tags).sort()` (JavaScript default sort compares
strings lexicographically). -/
def getAllTags (allPosts : List BlogPost) : List String :=
  (collectTags allPosts).mergeSort (fun a b => decide (a ≤ b))

/-- JavaScript falsiness of an optional route parameter of type
`string | undefined`: `!x` is true when the parameter is absent or the
empty string. -/
def jsFalsy (s : Option String) : Bool :=
  match s with
  | none => true
  | some str => str = ""

/-- A route handler's observable result: the HTTP status and the
`APIResponse` body it serialises. -/
structure RouteResult (α : Type) where
  status : Nat
  body : APIResponse α
deriving DecidableEq, Repr

/-- The `GET` handler of `src/pages/api/blog/[slug].ts`, shallowly
embedded. `slug` is `params.slug` (`string | undefined`); `allPosts` is
what the `await getPostBySlug(slug)` call would see from `getAllPosts`,
and `thrown` is `some message` when that awaited call throws (the `catch`
branch) and `none` when it returns normally. The handler first runs the
`if (!slug)` guard, then the awaited lookup inside `try`, mapping a null
post to 404, a found post to 200, and a thrown error to 500. -/
def slugRouteGET (slug : Option String) (allPosts : List BlogPost)
    (thrown : Option String) : RouteResult BlogPost :=
  if jsFalsy slug then
    ⟨400, ⟨false, none, some "Slug parameter is required", none⟩⟩
  else
    match thrown with
    | some msg =>
      ⟨500, ⟨false, none, some "Failed to fetch blog post", some msg⟩⟩
    | none =>
      match getPostBySlug (slug.getD "") allPosts with
      | none => ⟨404, ⟨false, none, some "Post not found", none⟩⟩
      | some post => ⟨200, ⟨true, some post, none, none⟩⟩

/-- The `GET` handler of `src/pages/api/blog/tags/[tag].ts`, shallowly
embedded the same way: `if (!tag)` guard first, then the awaited
`getPostsByTag(tag)` inside `try`, whose posts are mapped to their
metadata objects and returned with 200; a thrown error maps to 500. -/
def tagRouteGET (tag : Option String) (allPosts : List BlogPost)
    (thrown : Option String) : RouteResult (List BlogPostMeta) :=
  if jsFalsy tag then
    ⟨400, ⟨false, none, some "Tag parameter is required", none⟩⟩
  else
    match thrown with
    | some msg =>
      ⟨500, ⟨false, none, some "Failed to fetch blog posts by tag", some msg⟩⟩
    | none =>
      let posts := getPostsByTag (tag.getD "") allPosts
      ⟨200, ⟨true, some (posts.map toMeta), none, none⟩⟩

/-- Unfolding of one iteration of the retry loop. -/
theorem fetchLoop_fuel_succ (env : Nat → FetchOutcome) (a f : Nat) :
    fetchLoop env a (f + 1) =
      match attemptResult (env a) with
      | some posts => ⟨posts, a, [], false⟩
      | none =>
        ⟨(fetchLoop env (a + 1) f).posts,
          (fetchLoop env (a + 1) f).attemptsMade,
          (if a < maxRetries then [a * 2000] else []) ++
            (fetchLoop env (a + 1) f).delays,
          (fetchLoop env (a + 1) f).usedFallback⟩ := rfl

/-- Unfolding of the loop exit: all attempts exhausted, fallback returned. -/
theorem fetchLoop_fuel_zero (env : Nat → FetchOutcome) (a : Nat) :
    fetchLoop env a 0 = ⟨getFallbackPosts, a - 1, [], true⟩ := rfl

/-- A fetch environment in which every attempt fails with a network
error. -/
def envAllFail : Nat → FetchOutcome := fun _ => FetchOutcome.netError

/-- How many attempts fail before the first successful one, counted over
the three attempts `fetchWordPressPosts` can make. -/
def leadingFailures (env : Nat → FetchOutcome) : Nat :=
  if attemptResult (env 1) = none then
    if attemptResult (env 2) = none then
      if attemptResult (env 3) = none then 3 else 2
    else 1
  else 0

/-- C1: when every fetch attempt fails — network error, non-ok HTTP
status, or an empty post list all make `attemptResult` `none` —
`fetchWordPressPosts` makes exactly 3 attempts and returns the hard-coded
fallback list of exactly 3 posts. No error escapes: the embedding of the
function is total, and this run returns the fallback value rather than
`lastError`. -/
theorem fetch_allFail_returns_fallback (env : Nat → FetchOutcome)
    (h1 : attemptResult (env 1) = none)
    (h2 : attemptResult (env 2) = none)
    (h3 : attemptResult (env 3) = none) :
    fetchWordPressPosts env = ⟨getFallbackPosts, 3, [2000, 4000], true⟩ ∧
      getFallbackPosts.length = 3 := by
  constructor
  · show fetchLoop env 1 3 = _
    rw [show (3 : Nat) = 2 + 1 from rfl, fetchLoop_fuel_succ, h1]
    rw [show (2 : Nat) = 1 + 1 from rfl, fetchLoop_fuel_succ, h2]
    rw [show (1 : Nat) = 0 + 1 from rfl, fetchLoop_fuel_succ, h3]
    rw [fetchLoop_fuel_zero]
    simp [maxRetries]
  · rfl

/-- Witness for C1: in the environment where every attempt is a network
error, the run returns the 3 fallback posts after 3 attempts, sleeping
2000 ms and then 4000 ms between them. -/
theorem fetch_allFail_returns_fallback_witness :
    fetchWordPressPosts envAllFail =
        ⟨getFallbackPosts, 3, [2000, 4000], true⟩ ∧
      getFallbackPosts.length = 3 :=
  fetch_allFail_returns_fallback envAllFail rfl rfl rfl

/-- C5: the sleeps between consecutive retry attempts grow linearly —
after failed attempt `n` the loop sleeps `n * 2000` ms (2000 ms after the
first failure, 4000 ms after the second), and no sleep follows the final
attempt: the delay list is `(n + 1) * 2000` for `n` ranging over the
failed attempts that are not the last allowed one. -/
theorem fetch_backoff_delays (env : Nat → FetchOutcome) :
    (fetchWordPressPosts env).delays =
      (List.range (min (leadingFailures env) (maxRetries - 1))).map
        (fun n => (n + 1) * 2000) := by
  show (fetchLoop env 1 3).delays = _
  rw [show (3 : Nat) = 2 + 1 from rfl, fetchLoop_fuel_succ]
  rcases h1 : attemptResult (env 1) with _ | p1
  · rw [show (2 : Nat) = 1 + 1 from rfl, fetchLoop_fuel_succ]
    rcases h2 : attemptResult (env 2) with _ | p2
    · rw [show (1 : Nat) = 0 + 1 from rfl, fetchLoop_fuel_succ]
      rcases h3 : attemptResult (env 3) with _ | p3
      · simp [leadingFailures, h1, h2, h3, maxRetries, fetchLoop_fuel_zero,
          List.range_succ]
      · simp [leadingFailures, h1, h2, h3, maxRetries, List.range_succ]
    · simp [leadingFailures, h1, h2, maxRetries, List.range_succ]
  · simp [leadingFailures, h1, maxRetries]

/-- Witness for C5: with every attempt failing, the delays are exactly
2000 ms then 4000 ms. -/
theorem fetch_backoff_delays_witness :
    (fetchWordPressPosts envAllFail).delays = [2000, 4000] := by
  rw [fetch_backoff_delays envAllFail]
  rfl

/-- C2: `getAllPosts` returns the cached array without fetching exactly
when a cache is present and `now` is less than `CACHE_DURATION`
(five minutes) past the recorded timestamp; in every other case it runs
`fetchWordPressPosts` and replaces the cached array and the timestamp
wholesale with the fresh result, which it also returns. -/
theorem getAllPosts_cache_spec (st : CacheState) (now : Int)
    (env : Nat → FetchOutcome) :
    CACHE_DURATION = 5 * 60 * 1000 ∧
    ((getAllPosts st now env).fetched = false ↔
      ∃ c, st.postsCache = some c ∧
        now - st.cacheTimestamp < CACHE_DURATION) ∧
    (∀ c, st.postsCache = some c →
      now - st.cacheTimestamp < CACHE_DURATION →
      getAllPosts st now env = ⟨c, st, false⟩) ∧
    ((st.postsCache = none ∨ CACHE_DURATION ≤ now - st.cacheTimestamp) →
      getAllPosts st now env =
        ⟨(fetchWordPressPosts env).posts,
          ⟨some ((fetchWordPressPosts env).posts), now⟩, true⟩) := by
  obtain ⟨pc, ts⟩ := st
  refine ⟨rfl, ?_, ?_, ?_⟩
  · cases pc with
    | none => simp [getAllPosts]
    | some c =>
      by_cases h : now - ts < CACHE_DURATION <;> simp [getAllPosts, h]
  · intro c hc hlt
    cases pc with
    | none => simp at hc
    | some c2 =>
      obtain rfl : c2 = c := by injection hc
      simp [getAllPosts, hlt]
  · intro h
    cases pc with
    | none => simp [getAllPosts]
    | some c =>
      rcases h with h | h
      · simp at h
      · simp [getAllPosts, not_lt.mpr h]

/-- Witness for C2: from the initial state (no cache), a call fetches and
installs the fresh posts and the current timestamp. -/
theorem getAllPosts_cache_spec_witness :
    getAllPosts initialCacheState 0 envAllFail =
      ⟨(fetchWordPressPosts envAllFail).posts,
        ⟨some ((fetchWordPressPosts envAllFail).posts), 0⟩, true⟩ :=
  (getAllPosts_cache_spec initialCacheState 0 envAllFail).2.2.2 (Or.inl rfl)

/-- A successful attempt never carries an empty post list: the loop body
throws on `wpPosts.length === 0` before returning. -/
theorem attemptResult_some_ne_nil {o : FetchOutcome} {posts : List BlogPost}
    (h : attemptResult o = some posts) : posts ≠ [] := by
  cases o with
  | netError => simp [attemptResult] at h
  | httpError status => simp [attemptResult] at h
  | ok wpPosts =>
    by_cases hz : wpPosts.length = 0
    · simp [attemptResult, hz] at h
    · simp [attemptResult, hz] at h
      intro hnil
      rw [← h] at hnil
      simp at hnil
      exact hz (by simp [hnil])

/-- The fallback list is non-empty. -/
theorem getFallbackPosts_ne_nil : getFallbackPosts ≠ [] := by
  simp [getFallbackPosts]

/-- Whatever the environment, the retry loop returns a non-empty list:
either a successful attempt's posts (non-empty by
`attemptResult_some_ne_nil`) or the fallback list. -/
theorem fetchLoop_posts_ne_nil (env : Nat → FetchOutcome) (f a : Nat) :
    (fetchLoop env a f).posts ≠ [] := by
  induction f generalizing a with
  | zero => exact getFallbackPosts_ne_nil
  | succ f ih =>
    rw [fetchLoop_fuel_succ]
    rcases h : attemptResult (env a) with _ | posts
    · exact ih (a + 1)
    · exact attemptResult_some_ne_nil h

/-- The cache invariant: whenever the module-level `postsCache` is
non-null it holds a non-empty array. It holds of the initial state
(`postsCache = null`) and, by C9, is preserved by `getAllPosts`. -/
def CacheWF (st : CacheState) : Prop :=
  ∀ c, st.postsCache = some c → c ≠ []

/-- C9: an empty fetch result counts as a failed attempt, the fallback is
non-empty, `fetchWordPressPosts` always returns a non-empty list, and so
`getAllPosts` (from any state satisfying the cache invariant) returns a
non-empty array and preserves the invariant. The embedding is total, so no
exception can escape to a consumer. -/
theorem getAllPosts_nonempty (st : CacheState) (now : Int)
    (env : Nat → FetchOutcome) (hwf : CacheWF st) :
    attemptResult (FetchOutcome.ok []) = none ∧
    getFallbackPosts ≠ [] ∧
    (fetchWordPressPosts env).posts ≠ [] ∧
    (getAllPosts st now env).posts ≠ [] ∧
    CacheWF (getAllPosts st now env).state := by
  have hfetch : (fetchWordPressPosts env).posts ≠ [] :=
    fetchLoop_posts_ne_nil env maxRetries 1
  refine ⟨rfl, getFallbackPosts_ne_nil, hfetch, ?_, ?_⟩
  · obtain ⟨pc, ts⟩ := st
    cases pc with
    | none => exact hfetch
    | some c =>
      by_cases h : now - ts < CACHE_DURATION
      · simpa [getAllPosts, h] using hwf c rfl
      · simpa [getAllPosts, h] using hfetch
  · obtain ⟨pc, ts⟩ := st
    cases pc with
    | none =>
      intro c hc
      simp [getAllPosts] at hc
      rw [← hc]
      exact hfetch
    | some c0 =>
      by_cases h : now - ts < CACHE_DURATION
      · intro c hc
        simp [getAllPosts, h] at hc
        rw [← hc]
        exact hwf c0 rfl
      · intro c hc
        simp [getAllPosts, h] at hc
        rw [← hc]
        exact hfetch

/-- Witness for C9: starting from the initial state with every fetch
failing, the returned array is non-empty and the invariant still holds. -/
theorem getAllPosts_nonempty_witness :
    attemptResult (FetchOutcome.ok []) = none ∧
    getFallbackPosts ≠ [] ∧
    (fetchWordPressPosts envAllFail).posts ≠ [] ∧
    (getAllPosts initialCacheState 0 envAllFail).posts ≠ [] ∧
    CacheWF (getAllPosts initialCacheState 0 envAllFail).state :=
  getAllPosts_nonempty initialCacheState 0 envAllFail
    (fun _ h => Option.noConfusion h)

/-- The ceiling of the exact quotient `n / l` agrees with the natural
division formula `(n + l - 1) / l` for positive `l`. -/
theorem natCeil_natCast_div (n l : Nat) (hl : 0 < l) :
    ⌈(n : ℚ) / (l : ℚ)⌉₊ = (n + l - 1) / l := by
  rcases Nat.eq_zero_or_pos n with hn | hn
  · subst hn
    simp
    exact (Nat.div_eq_of_lt (by omega)).symm
  · have hlq : (0 : ℚ) < (l : ℚ) := by exact_mod_cast hl
    have hq1 : 1 ≤ (n + l - 1) / l := by
      rw [Nat.one_le_div_iff hl]
      omega
    rw [Nat.ceil_eq_iff (by omega)]
    have hdm := Nat.div_add_mod (n + l - 1) l
    have hmod : (n + l - 1) % l < l := Nat.mod_lt _ hl
    set q := (n + l - 1) / l with hq
    set r := (n + l - 1) % l with hr
    have hmn : n ≤ l * q := by omega
    have hmn2 : n ≤ q * l := by rw [mul_comm] at hmn; exact hmn
    have hsub : (q - 1) * l = l * q - l := by
      rw [Nat.sub_mul, one_mul, mul_comm]
    have hlt : (q - 1) * l < n := by omega
    constructor
    · rw [lt_div_iff₀ hlq]
      exact_mod_cast hlt
    · rw [div_le_iff₀ hlq]
      exact_mod_cast hmn2

/-- A small concrete post used to instantiate universally quantified
theorems. -/
def samplePost : BlogPost :=
  ⟨"1", "A title", "a-slug", "An excerpt", "Some content", "An author",
    "2025-01-01T00:00:00", "2025-01-02T00:00:00", ["nhs", "x"], false,
    true, none⟩

/-- C3: for `page >= 1` and `limit >= 1`, `getPaginatedPosts` returns the
metadata of the posts at indices `(page - 1) * limit` through
`page * limit - 1` (the window `drop ((page - 1) * limit)` then
`take limit`), in order, with `totalPosts` the number of posts,
`totalPages = ceil(totalPosts / limit)` (equivalently the natural division
formula), `hasNext` exactly when `page < totalPages`, and `hasPrev`
exactly when `page > 1`. -/
theorem getPaginatedPosts_spec (allPosts : List BlogPost)
    (page limit : Nat) (hp : 1 ≤ page) (hl : 1 ≤ limit) :
    (getPaginatedPosts allPosts page limit).posts =
        ((allPosts.drop ((page - 1) * limit)).take limit).map toMeta ∧
    (getPaginatedPosts allPosts page limit).pagination.currentPage = page ∧
    (getPaginatedPosts allPosts page limit).pagination.totalPosts =
        allPosts.length ∧
    (getPaginatedPosts allPosts page limit).pagination.totalPages =
        ⌈(allPosts.length : ℚ) / (limit : ℚ)⌉₊ ∧
    (getPaginatedPosts allPosts page limit).pagination.totalPages =
        (allPosts.length + limit - 1) / limit ∧
    ((getPaginatedPosts allPosts page limit).pagination.hasNext = true ↔
        page < (getPaginatedPosts allPosts page limit).pagination.totalPages) ∧
    ((getPaginatedPosts allPosts page limit).pagination.hasPrev = true ↔
        1 < page) := by
  refine ⟨?_, rfl, rfl, rfl, natCeil_natCast_div allPosts.length limit hl,
    ?_, ?_⟩
  · show (jsSlice allPosts ((page - 1) * limit)
        ((page - 1) * limit + limit)).map toMeta = _
    unfold jsSlice
    rw [List.drop_take]
    simp
  · exact decide_eq_true_iff
  · exact decide_eq_true_iff

/-- Witness for C3: one post, page 1, limit 1. -/
theorem getPaginatedPosts_spec_witness :
    (getPaginatedPosts [samplePost] 1 1).posts = [toMeta samplePost] ∧
    (getPaginatedPosts [samplePost] 1 1).pagination.totalPages = 1 := by
  obtain ⟨hposts, -, -, -, hpages, -, -⟩ :=
    getPaginatedPosts_spec [samplePost] 1 1 (by decide) (by decide)
  constructor
  · rw [hposts]
    rfl
  · rw [hpages]
    rfl

/-- A post differing from `samplePost` only in its `updatedAt` field. -/
def samplePostTouched : BlogPost :=
  ⟨"1", "A title", "a-slug", "An excerpt", "Some content", "An author",
    "2025-01-01T00:00:00", "2025-03-09T00:00:00", ["nhs", "x"], false,
    true, none⟩

/-- Counterexample to C4: two posts with identical `content` that differ
(in `updatedAt`, a non-content field) map to the same metadata object, so
the metadata view forgets more than `content` alone — `BlogPostMeta` also
lacks the `updatedAt` and `published` fields of `BlogPost`. -/
theorem toMeta_drops_more_than_content_counterexample :
    toMeta samplePost = toMeta samplePostTouched ∧
    samplePost.content = samplePostTouched.content ∧
    samplePost ≠ samplePostTouched := by
  refine ⟨rfl, rfl, ?_⟩
  intro h
  have := congrArg BlogPost.updatedAt h
  simp [samplePost, samplePostTouched] at this

/-- C4 as amended: `BlogPostMeta` is the `BlogPost` record minus exactly
the three fields `content`, `updatedAt` and `published`; the metadata
objects constructed by `getPaginatedPosts` carry the other nine fields
unchanged, and two posts have the same metadata exactly when they agree on
those nine fields. -/
theorem toMeta_omits_content_updatedAt_published (post : BlogPost) :
    (toMeta post).id = post.id ∧
    (toMeta post).title = post.title ∧
    (toMeta post).slug = post.slug ∧
    (toMeta post).excerpt = post.excerpt ∧
    (toMeta post).author = post.author ∧
    (toMeta post).publishedAt = post.publishedAt ∧
    (toMeta post).tags = post.tags ∧
    (toMeta post).featured = post.featured ∧
    (toMeta post).coverImage = post.coverImage ∧
    (∀ q : BlogPost, toMeta post = toMeta q ↔
      (post.id = q.id ∧ post.title = q.title ∧ post.slug = q.slug ∧
        post.excerpt = q.excerpt ∧ post.author = q.author ∧
        post.publishedAt = q.publishedAt ∧ post.tags = q.tags ∧
        post.featured = q.featured ∧ post.coverImage = q.coverImage)) := by
  refine ⟨rfl, rfl, rfl, rfl, rfl, rfl, rfl, rfl, rfl, ?_⟩
  intro q
  simp [toMeta, BlogPostMeta.mk.injEq]

/-- Witness for the amended C4: the two sample posts agree on the nine
retained fields, so their metadata objects are equal. -/
theorem toMeta_omits_content_updatedAt_published_witness :
    toMeta samplePost = toMeta samplePostTouched :=
  ((toMeta_omits_content_updatedAt_published samplePost).2.2.2.2.2.2.2.2.2
    samplePostTouched).mpr (by decide)

/-- Counterexample to C6: for a present but empty `slug` parameter the
`if (!slug)` guard fires (the empty string is falsy in JavaScript), so the
handler answers 400, although `getPostBySlug` finds no post with that slug
and the claim then calls for 404; likewise the tag route answers 400, not
200, for a present but empty `tag`. -/
theorem route_handlers_emptyParam_counterexample :
    getPostBySlug "" getFallbackPosts = none ∧
    (slugRouteGET (some "") getFallbackPosts none).status = 400 ∧
    (slugRouteGET (some "") getFallbackPosts none).status ≠ 404 ∧
    (tagRouteGET (some "") getFallbackPosts none).status = 400 ∧
    (tagRouteGET (some "") getFallbackPosts none).status ≠ 200 := by
  refine ⟨?_, rfl, by decide, rfl, by decide⟩
  rfl

/-- C6 as amended: both handlers wrap their result in the `APIResponse`
envelope; the slug route returns 400 with `success = false` when the slug
parameter is absent or the empty string, 500 with `success = false` when
the awaited lookup throws, 404 with `success = false` when the slug is a
non-empty string matching no post, and 200 with `success = true` and the
full post when one matches; the tag route analogously returns 400 for an
absent or empty tag parameter, 500 on a thrown error, and otherwise 200
with `success = true` and the matching posts' metadata. -/
theorem route_handlers_envelope (slug tag : Option String)
    (allPosts : List BlogPost) (thrown : Option String) :
    (jsFalsy slug = true →
      slugRouteGET slug allPosts thrown =
        ⟨400, ⟨false, none, some "Slug parameter is required", none⟩⟩) ∧
    (jsFalsy slug = false → ∀ msg, thrown = some msg →
      slugRouteGET slug allPosts thrown =
        ⟨500, ⟨false, none, some "Failed to fetch blog post", some msg⟩⟩) ∧
    (jsFalsy slug = false → thrown = none →
      getPostBySlug (slug.getD "") allPosts = none →
      slugRouteGET slug allPosts thrown =
        ⟨404, ⟨false, none, some "Post not found", none⟩⟩) ∧
    (jsFalsy slug = false → thrown = none → ∀ post,
      getPostBySlug (slug.getD "") allPosts = some post →
      slugRouteGET slug allPosts thrown =
        ⟨200, ⟨true, some post, none, none⟩⟩) ∧
    (jsFalsy tag = true →
      tagRouteGET tag allPosts thrown =
        ⟨400, ⟨false, none, some "Tag parameter is required", none⟩⟩) ∧
    (jsFalsy tag = false → ∀ msg, thrown = some msg →
      tagRouteGET tag allPosts thrown =
        ⟨500, ⟨false, none, some "Failed to fetch blog posts by tag",
          some msg⟩⟩) ∧
    (jsFalsy tag = false → thrown = none →
      tagRouteGET tag allPosts thrown =
        ⟨200, ⟨true,
          some ((getPostsByTag (tag.getD "") allPosts).map toMeta),
          none, none⟩⟩) := by
  refine ⟨?_, ?_, ?_, ?_, ?_, ?_, ?_⟩
  · intro h
    simp [slugRouteGET, h]
  · intro h msg hmsg
    simp [slugRouteGET, h, hmsg]
  · intro h hn hfind
    simp [slugRouteGET, h, hn, hfind]
  · intro h hn post hfind
    simp [slugRouteGET, h, hn, hfind]
  · intro h
    simp [tagRouteGET, h]
  · intro h msg hmsg
    simp [tagRouteGET, h, hmsg]
  · intro h hn
    simp [tagRouteGET, h, hn]

/-- Witness for the amended C6: a missing slug yields the 400 envelope,
and a concrete non-empty tag yields the 200 envelope with the matching
metadata. -/
theorem route_handlers_envelope_witness :
    slugRouteGET none getFallbackPosts none =
      ⟨400, ⟨false, none, some "Slug parameter is required", none⟩⟩ ∧
    tagRouteGET (some "nhs") getFallbackPosts none =
      ⟨200, ⟨true,
        some ((getPostsByTag "nhs" getFallbackPosts).map toMeta),
        none, none⟩⟩ :=
  ⟨(route_handlers_envelope none (some "nhs") getFallbackPosts none).1 rfl,
    (route_handlers_envelope none (some "nhs") getFallbackPosts
      none).2.2.2.2.2.2 rfl rfl⟩

/-- `find?` returns only a first match: whatever it returns satisfies the
predicate and is preceded only by non-matching elements. -/
theorem find?_eq_some_split {α : Type} (l : List α) (p : α → Bool) (b : α)
    (h : l.find? p = some b) :
    ∃ l1 l2, l = l1 ++ b :: l2 ∧ p b = true ∧ ∀ a ∈ l1, ¬ p a := by
  induction l with
  | nil => simp [List.find?] at h
  | cons x xs ih =>
    by_cases hx : p x
    · rw [List.find?_cons_of_pos _ hx] at h
      obtain rfl : x = b := by injection h
      exact ⟨[], xs, by simp, hx, by simp⟩
    · rw [List.find?_cons_of_neg _ (by simpa using hx)] at h
      obtain ⟨l1, l2, rfl, hb, hl1⟩ := ih h
      refine ⟨x :: l1, l2, by simp, hb, ?_⟩
      intro a ha
      rcases List.mem_cons.mp ha with rfl | ha2
      · simpa using hx
      · exact hl1 a ha2

/-- Conversely, `find?` does return the first match. -/
theorem find?_append_first {α : Type} (l1 l2 : List α) (p : α → Bool)
    (b : α) (hb : p b = true) (h1 : ∀ a ∈ l1, ¬ p a) :
    (l1 ++ b :: l2).find? p = some b := by
  induction l1 with
  | nil => simp [List.find?_cons_of_pos _ hb]
  | cons x xs ih =>
    have hx : ¬ p x := h1 x (by simp)
    simp only [List.cons_append]
    rw [List.find?_cons_of_neg _ (by simpa using hx)]
    exact ih (fun a ha => h1 a (by simp [ha]))

/-- C7: `getPostsByTag t` keeps exactly the posts whose `tags` contain
`t`, in their original relative order (it is a sublist of the input), and
`getPostBySlug s` returns the first post whose slug is `s`, or `none`
when no post matches. -/
theorem postsByTag_and_postBySlug_spec (t s : String)
    (allPosts : List BlogPost) :
    (∀ post, post ∈ getPostsByTag t allPosts ↔
      post ∈ allPosts ∧ t ∈ post.tags) ∧
    (getPostsByTag t allPosts).Sublist allPosts ∧
    (getPostBySlug s allPosts = none ↔
      ∀ post ∈ allPosts, post.slug ≠ s) ∧
    (∀ post, getPostBySlug s allPosts = some post ↔
      post.slug = s ∧ ∃ l1 l2, allPosts = l1 ++ post :: l2 ∧
        ∀ q ∈ l1, q.slug ≠ s) := by
  refine ⟨?_, ?_, ?_, ?_⟩
  · intro post
    rw [getPostsByTag, List.mem_filter]
    simp [List.elem_iff]
  · exact List.filter_sublist allPosts
  · rw [getPostBySlug, List.find?_eq_none]
    constructor
    · intro h post hmem
      have := h post hmem
      simpa using this
    · intro h post hmem
      simpa using h post hmem
  · intro post
    constructor
    · intro h
      obtain ⟨l1, l2, rfl, hb, hl1⟩ :=
        find?_eq_some_split allPosts _ post h
      refine ⟨by simpa using hb, l1, l2, rfl, ?_⟩
      intro q hq
      simpa using hl1 q hq
    · rintro ⟨hslug, l1, l2, rfl, hl1⟩
      exact find?_append_first l1 l2 _ post (by simpa using hslug)
        (fun a ha => by simpa using hl1 a ha)

/-- Witness for C7: membership in the tag filter and the empty lookup
characterisation, instantiated on a one-post list. -/
theorem postsByTag_and_postBySlug_spec_witness :
    (samplePost ∈ getPostsByTag "nhs" [samplePost] ↔
      samplePost ∈ [samplePost] ∧ "nhs" ∈ samplePost.tags) ∧
    (getPostBySlug "no-such-slug" [samplePost] = none ↔
      ∀ post ∈ [samplePost], post.slug ≠ "no-such-slug") :=
  ⟨(postsByTag_and_postBySlug_spec "nhs" "no-such-slug" [samplePost]).1
      samplePost,
    (postsByTag_and_postBySlug_spec "nhs" "no-such-slug" [samplePost]).2.2.1⟩

/-- Membership after folding one post's tags into the accumulating
deduplicated list. -/
theorem mem_foldl_addTag (tags : List String) (acc : List String)
    (t : String) :
    (t ∈ tags.foldl
        (fun acc2 tag => if tag ∈ acc2 then acc2 else acc2 ++ [tag]) acc) ↔
      t ∈ acc ∨ t ∈ tags := by
  induction tags generalizing acc with
  | nil => simp
  | cons a l ih =>
    simp only [List.foldl_cons]
    by_cases ha : a ∈ acc
    · rw [if_pos ha, ih]
      constructor
      · rintro (h | h)
        · exact Or.inl h
        · exact Or.inr (by simp [h])
      · rintro (h | h)
        · exact Or.inl h
        · rcases List.mem_cons.mp h with rfl | h2
          · exact Or.inl ha
          · exact Or.inr h2
    · rw [if_neg ha, ih]
      simp [List.mem_append, or_assoc]

/-- The fold keeps the accumulator duplicate-free. -/
theorem nodup_foldl_addTag (tags : List String) (acc : List String)
    (h : acc.Nodup) :
    (tags.foldl
        (fun acc2 tag => if tag ∈ acc2 then acc2 else acc2 ++ [tag])
        acc).Nodup := by
  induction tags generalizing acc with
  | nil => exact h
  | cons a l ih =>
    simp only [List.foldl_cons]
    by_cases ha : a ∈ acc
    · rw [if_pos ha]
      exact ih acc h
    · rw [if_neg ha]
      refine ih (acc ++ [a]) ?_
      simp [List.nodup_append, h, ha]

/-- Membership in the whole `Set`-accumulation over all posts. -/
theorem mem_collectTags (allPosts : List BlogPost) (t : String) :
    t ∈ collectTags allPosts ↔ ∃ p ∈ allPosts, t ∈ p.tags := by
  have general :
      ∀ (posts : List BlogPost) (acc : List String),
        (t ∈ posts.foldl
            (fun acc post =>
              post.tags.foldl
                (fun acc2 tag => if tag ∈ acc2 then acc2 else acc2 ++ [tag])
                acc)
            acc) ↔
          t ∈ acc ∨ ∃ p ∈ posts, t ∈ p.tags := by
    intro posts
    induction posts with
    | nil => simp
    | cons p l ih =>
      intro acc
      simp only [List.foldl_cons]
      rw [ih, mem_foldl_addTag]
      simp [or_assoc]
  simpa using general allPosts []

/-- The `Set`-accumulation over all posts is duplicate-free. -/
theorem nodup_collectTags (allPosts : List BlogPost) :
    (collectTags allPosts).Nodup := by
  have general :
      ∀ (posts : List BlogPost) (acc : List String), acc.Nodup →
        (posts.foldl
            (fun acc post =>
              post.tags.foldl
                (fun acc2 tag => if tag ∈ acc2 then acc2 else acc2 ++ [tag])
                acc)
            acc).Nodup := by
    intro posts
    induction posts with
    | nil => exact fun acc h => h
    | cons p l ih =>
      intro acc h
      simp only [List.foldl_cons]
      exact ih _ (nodup_foldl_addTag p.tags acc h)
  exact general allPosts [] List.nodup_nil

/-- C8: `getAllTags` returns the union of all posts' tags with duplicates
removed — every string in the result occurs exactly once, and a string is
in the result exactly when some post carries it. -/
theorem getAllTags_spec (allPosts : List BlogPost) :
    (∀ t ∈ getAllTags allPosts, (getAllTags allPosts).count t = 1) ∧
    (∀ t, t ∈ getAllTags allPosts ↔ ∃ p ∈ allPosts, t ∈ p.tags) := by
  have hperm : (getAllTags allPosts).Perm (collectTags allPosts) :=
    List.mergeSort_perm (collectTags allPosts) _
  have hnodup : (getAllTags allPosts).Nodup :=
    hperm.nodup_iff.mpr (nodup_collectTags allPosts)
  constructor
  · intro t ht
    exact List.count_eq_one_of_mem hnodup ht
  · intro t
    rw [hperm.mem_iff, mem_collectTags]

/-- Witness for C8: on a one-post list the result contains the post's
tags, each once. -/
theorem getAllTags_spec_witness :
    ("nhs" ∈ getAllTags [samplePost] ↔
      ∃ p ∈ [samplePost], "nhs" ∈ p.tags) ∧
    ("nhs" ∈ getAllTags [samplePost] →
      (getAllTags [samplePost]).count "nhs" = 1) :=
  ⟨(getAllTags_spec [samplePost]).2 "nhs",
    (getAllTags_spec [samplePost]).1 "nhs"⟩

/-- C10: `getFeaturedPosts` returns the first `min 3 n` posts, each equal
to the corresponding input post with only the `featured` field overwritten
to `true` (every other field of `markFeatured post` equals the matching
field of `post`), and no element beyond index 2 is ever returned. -/
theorem getFeaturedPosts_spec (allPosts : List BlogPost) :
    (getFeaturedPosts allPosts).length = min 3 allPosts.length ∧
    (∀ i : Nat, (getFeaturedPosts allPosts)[i]? =
      if i < 3 then allPosts[i]?.map markFeatured else none) ∧
    (∀ post : BlogPost,
      (markFeatured post).featured = true ∧
      (markFeatured post).id = post.id ∧
      (markFeatured post).title = post.title ∧
      (markFeatured post).slug = post.slug ∧
      (markFeatured post).excerpt = post.excerpt ∧
      (markFeatured post).content = post.content ∧
      (markFeatured post).author = post.author ∧
      (markFeatured post).publishedAt = post.publishedAt ∧
      (markFeatured post).updatedAt = post.updatedAt ∧
      (markFeatured post).tags = post.tags ∧
      (markFeatured post).published = post.published ∧
      (markFeatured post).coverImage = post.coverImage) := by
  refine ⟨?_, ?_, ?_⟩
  · simp [getFeaturedPosts]
  · intro i
    simp [getFeaturedPosts, List.getElem?_take]
  · intro post
    exact ⟨rfl, rfl, rfl, rfl, rfl, rfl, rfl, rfl, rfl, rfl, rfl, rfl⟩

/-- Witness for C10: with four posts only the first three come back, each
with `featured = true`. -/
theorem getFeaturedPosts_spec_witness :
    (getFeaturedPosts [samplePost, samplePost, samplePost,
        samplePost]).length = min 3 4 ∧
    (getFeaturedPosts [samplePost, samplePost, samplePost,
        samplePost])[3]? = none := by
  obtain ⟨hlen, hget, -⟩ := getFeaturedPosts_spec
    [samplePost, samplePost, samplePost, samplePost]
  refine ⟨by simpa using hlen, ?_⟩
  rw [hget 3]
  rfl
